import Mathlib

/-!
# Verification of the IsaacVM_serverJS session / CSRF / auth / checkout subsystem

A shallow embedding of the security-relevant server logic of `src/server.js`
(and, where the server-side order orchestrator is absent from the sources,
a model built from the specification).  Persistent state (the SQLite tables
`users`, `sessions`, `session_data`) is embedded as lists of records; each
route handler or middleware becomes a pure function from a request and a
database state to a response together with the successor state.

JavaScript truthiness of optional string values (`req.body.x || ...`,
`if (!token)`) is modelled explicitly: a value is truthy iff it is present
and non-empty.
-/

namespace IsaacVM

/-- JS truthiness of an optional string: present and non-empty. -/
def truthy : Option String → Bool
  | none => false
  | some s => !(s == "")

/-- The JS `a || b` idiom on optional strings: `b` when `a` is falsy. -/
def jsOr (a b : Option String) : Option String :=
  if truthy a then a else b

/-- A row of the `users` table. -/
structure User where
  userid : Nat
  email : String
  password : String
  salt : String
  is_admin : Bool
  deriving DecidableEq, Repr

/-- A row of the `sessions` table.  `expires_at` is an abstract timestamp. -/
structure Session where
  session_id : String
  userid : Nat
  expires_at : Nat
  deriving DecidableEq, Repr

/-- A row of the `session_data` table (per-session key/value store). -/
structure SessionDatum where
  session_id : String
  key : String
  value : String
  deriving DecidableEq, Repr

/-- The persistent store: the three tables the auth subsystem touches. -/
structure Db where
  users : List User
  sessions : List Session
  sessionData : List SessionDatum
  deriving DecidableEq, Repr

/-- `SELECT * FROM users WHERE email = ?` (first match). -/
def findUserByEmail (db : Db) (email : String) : Option User :=
  db.users.find? (fun u => u.email == email)

/-- `SELECT * FROM users WHERE userid = ?` (first match). -/
def findUserById (db : Db) (uid : Nat) : Option User :=
  db.users.find? (fun u => u.userid == uid)

/-- `SELECT * FROM sessions WHERE session_id = ?` (no expiry condition). -/
def findSession (db : Db) (sid : String) : Option Session :=
  db.sessions.find? (fun s => s.session_id == sid)

/-- `SELECT value FROM session_data WHERE session_id = ? AND key = ?`. -/
def findSessionData (db : Db) (sid key : String) : Option SessionDatum :=
  db.sessionData.find? (fun d => d.session_id == sid && d.key == key)

/-- The request fields the embedded middleware and handlers consult. -/
structure Req where
  method : String
  bodyCsrf : Option String
  headerCsrf : Option String
  bodyEmail : Option String
  bodyPassword : Option String
  cookieSessionId : Option String
  cookieCsrf : Option String
  deriving DecidableEq, Repr

/-- Outcome of a middleware: either `next()` with the (possibly updated)
store, or a short-circuited JSON error response. -/
inductive MwOutcome where
  | next (db : Db)
  | reject (status : Nat) (error : String)
  deriving DecidableEq, Repr

/-- `validateCSRF` (src/server.js lines 498–538): GET requests are exempt;
the token is taken from the body field `csrf_token` or the `x-csrf-token`
header; a missing token is a 403; when a `session_id` cookie names an
existing session, the token is pinned into `session_data` on first use and
compared against the pinned value afterwards.  The `csrf_token` cookie is
not consulted. -/
def validateCSRF (db : Db) (req : Req) : MwOutcome :=
  if req.method == "GET" then .next db
  else
    let csrfToken := jsOr req.bodyCsrf req.headerCsrf
    if !truthy csrfToken then .reject 403 "CSRF token is required"
    else if truthy req.cookieSessionId then
      let sid := req.cookieSessionId.getD ""
      match findSession db sid with
      | some session =>
        match findSessionData db session.session_id "csrf_token" with
        | none =>
          .next { db with
            sessionData := db.sessionData ++
              [⟨session.session_id, "csrf_token", csrfToken.getD ""⟩] }
        | some d =>
          if d.value ≠ csrfToken.getD "" then .reject 403 "Invalid CSRF token"
          else .next db
      | none => .next db
    else .next db

/-- `validateEnhancedCSRF` (src/server.js lines 541–595): the double-submit
variant, which additionally requires the `csrf_token` cookie to be present
and equal to the request-supplied token before the session-pinning step. -/
def validateEnhancedCSRF (db : Db) (req : Req) : MwOutcome :=
  if req.method == "GET" then .next db
  else
    let requestCSRFToken := jsOr req.bodyCsrf req.headerCsrf
    if !truthy requestCSRFToken then .reject 403 "CSRF token is required"
    else if !truthy req.cookieCsrf then
      .reject 403 "CSRF cookie is missing or expired"
    else if requestCSRFToken.getD "" ≠ req.cookieCsrf.getD "" then
      .reject 403 "Invalid CSRF token"
    else if truthy req.cookieSessionId then
      let sid := req.cookieSessionId.getD ""
      match findSession db sid with
      | some session =>
        match findSessionData db session.session_id "csrf_token" with
        | none =>
          .next { db with
            sessionData := db.sessionData ++
              [⟨session.session_id, "csrf_token", requestCSRFToken.getD ""⟩] }
        | some d =>
          if d.value ≠ requestCSRFToken.getD "" then
            .reject 403 "Invalid session CSRF token"
          else .next db
      | none => .next db
    else .next db

/-- Outcome of the authentication middleware: the user attached to the
request, or an error response together with whether the `session_id`
cookie was cleared. -/
inductive AuthOutcome where
  | ok (userid : Nat) (is_admin : Bool)
  | reject (status : Nat) (error : String) (clearCookie : Bool)
  deriving DecidableEq, Repr

/-- `isAuthenticated` (src/server.js lines 456–487): requires a truthy
`session_id` cookie; runs
`SELECT s.*, u.is_admin FROM sessions s JOIN users u ON s.userid = u.userid
 WHERE s.session_id = ? AND s.expires_at > datetime('now')`;
on no row, clears the cookie and answers 401. -/
def isAuthenticated (db : Db) (now : Nat) (req : Req) : AuthOutcome :=
  if !truthy req.cookieSessionId then
    .reject 401 "Authentication required" false
  else
    let sid := req.cookieSessionId.getD ""
    let row :=
      (db.sessions.find? (fun s => s.session_id == sid && decide (now < s.expires_at))).bind
        (fun s => (findUserById db s.userid).map (fun u => (s, u)))
    match row with
    | none => .reject 401 "Session expired or invalid" true
    | some (s, u) => .ok s.userid u.is_admin

/-- `hashPassword` (src/server.js lines 196–203) delegates to PBKDF2
(10000 iterations, SHA-512, 64-byte key, hex output); the derivation
itself lives in Node's crypto library, so it is a parameter here. -/
def hashPassword (pbkdf2 : String → String → String) (password salt : String) : String :=
  pbkdf2 password salt

/-- `verifyPassword` (src/server.js lines 206–209): hash the candidate with
the stored salt and compare with the stored hash. -/
def verifyPassword (pbkdf2 : String → String → String)
    (password storedHash salt : String) : Bool :=
  hashPassword pbkdf2 password salt == storedHash

/-- The user object returned by a successful login. -/
structure LoginUser where
  email : String
  is_admin : Bool
  deriving DecidableEq, Repr

/-- Response of the login route: success carries the public user object and
the value set into the `session_id` cookie. -/
inductive LoginResp where
  | ok (user : LoginUser) (sessionCookie : String)
  | err (status : Nat) (error : String)
  deriving DecidableEq, Repr

/-- The login TTL: 3 days, in seconds (src/server.js line 772). -/
def loginTTL : Nat := 3 * 86400

/-- The `POST /api/auth/login` handler body (src/server.js lines 745–811),
after the CSRF middleware: validates presence of email/password, looks the
user up by email, verifies the password, deletes every session of that
user, inserts the fresh session, and pins the body `csrf_token` (when
truthy) into `session_data` for the new session. -/
def loginHandler (pbkdf2 : String → String → String) (db : Db) (req : Req)
    (newSid : String) (now : Nat) : LoginResp × Db :=
  if !truthy req.bodyEmail || !truthy req.bodyPassword then
    (.err 400 "Email and password are required", db)
  else
    match findUserByEmail db (req.bodyEmail.getD "") with
    | none => (.err 401 "Invalid email or password", db)
    | some user =>
      if !verifyPassword pbkdf2 (req.bodyPassword.getD "") user.password user.salt then
        (.err 401 "Invalid email or password", db)
      else
        let expiresAt := now + loginTTL
        let sessions1 := db.sessions.filter (fun s => decide (s.userid ≠ user.userid))
        let sessions2 := sessions1 ++ [⟨newSid, user.userid, expiresAt⟩]
        let sData :=
          if truthy req.bodyCsrf then
            db.sessionData ++ [⟨newSid, "csrf_token", req.bodyCsrf.getD ""⟩]
          else db.sessionData
        (.ok ⟨user.email, user.is_admin⟩ newSid,
          { db with sessions := sessions2, sessionData := sData })

/-- The full login route `app.post('/api/auth/login', validateCSRF, ...)`:
the CSRF middleware runs first and may short-circuit or update the store. -/
def loginRoute (pbkdf2 : String → String → String) (db : Db) (req : Req)
    (newSid : String) (now : Nat) : LoginResp × Db :=
  match validateCSRF db req with
  | .reject s e => (.err s e, db)
  | .next db1 => loginHandler pbkdf2 db1 req newSid now

/-- Response of the change-password handler. -/
inductive CpResp where
  | ok
  | err (status : Nat) (error : String)
  deriving DecidableEq, Repr

/-- The `POST /api/auth/change-password` handler body (src/server.js lines
847–892), after authentication: validates presence and length of the new
password, verifies the current password, stores the new salt and hash, and
deletes every session of the user.  A missing user row would make
`user.password` throw, caught as a 500. -/
def changePasswordHandler (pbkdf2 : String → String → String) (db : Db)
    (userid : Nat) (currentPassword newPassword : Option String)
    (newSalt : String) : CpResp × Db :=
  if !truthy currentPassword || !truthy newPassword then
    (.err 400 "Current password and new password are required", db)
  else if (newPassword.getD "").length < 8 then
    (.err 400 "New password must be at least 8 characters long", db)
  else
    match findUserById db userid with
    | none => (.err 500 "Internal server error", db)
    | some user =>
      if !verifyPassword pbkdf2 (currentPassword.getD "") user.password user.salt then
        (.err 401 "Current password is incorrect", db)
      else
        let newHash := hashPassword pbkdf2 (newPassword.getD "") newSalt
        let users1 := db.users.map (fun u =>
          if u.userid == user.userid then { u with password := newHash, salt := newSalt } else u)
        let sessions1 := db.sessions.filter (fun s => decide (s.userid ≠ user.userid))
        (.ok, { db with users := users1, sessions := sessions1 })

/-! ## Order/Checkout Orchestrator

The server-side handler of `POST /api/orders/create` is not among the
reviewed sources; only its client-side caller (`src/public/checkout.js`)
is.  The definitions below are therefore modelled from the specification
(§4.5 Order/Checkout Orchestrator). -/

/-- A row of the `products` catalog the orchestrator reads prices from. -/
structure Product where
  pid : Nat
  name : String
  price : ℤ
  deriving DecidableEq, Repr

/-- A checkout line as submitted by the client: `{pid, quantity}`, plus an
untrusted client-side price field the server must ignore. -/
structure CheckoutItem where
  pid : Nat
  quantity : Int
  clientPrice : Option ℤ
  deriving DecidableEq, Repr

/-- A persisted order line with the price snapshotted at lookup time. -/
structure OrderLine where
  product_id : Nat
  name : String
  unit_price_at_purchase : ℤ
  quantity : Int
  deriving DecidableEq, Repr

/-- Order status per the data model (§3). -/
inductive OrderStatus where
  | CREATED | APPROVED | COMPLETED | FAILED
  deriving DecidableEq, Repr

/-- A persisted order. -/
structure Order where
  lines : List OrderLine
  total_amount : ℤ
  status : OrderStatus
  deriving DecidableEq, Repr

/-- Catalog lookup by product id. -/
def lookupProduct (catalog : List Product) (pid : Nat) : Option Product :=
  catalog.find? (fun p => p.pid == pid)

/-- Modelled from the spec: the pre-validation/re-pricing pass of the
missing `POST /api/orders/create` handler (§4.5): every product id must
resolve to an existing catalog entry and every quantity must be a positive
integer; name and unit price are re-derived from the catalog record, never
from the client. -/
def priceItems (catalog : List Product) : List CheckoutItem → Option (List OrderLine)
  | [] => some []
  | it :: rest =>
    if it.quantity ≤ 0 then none
    else
      match lookupProduct catalog it.pid with
      | none => none
      | some p =>
        match priceItems catalog rest with
        | none => none
        | some ls => some (⟨p.pid, p.name, p.price, it.quantity⟩ :: ls)

/-- Result of order creation. -/
inductive CreateOrderResult where
  | created (o : Order)
  | badRequest (error : String)
  deriving DecidableEq, Repr

/-- Modelled from the spec: the missing `POST /api/orders/create` handler
(§4.5): a pre-validation pass over the submitted items, then — only when
every item validated — insertion of a single order with status CREATED and
`total = Σ(unit_price_at_lookup × quantity)`; any lookup miss or invalid
quantity aborts with a 4xx and no order row. -/
def createOrder (catalog : List Product) (orders : List Order)
    (items : List CheckoutItem) : CreateOrderResult × List Order :=
  match priceItems catalog items with
  | none => (.badRequest "Invalid items", orders)
  | some lines =>
    let total := (lines.map (fun l => l.unit_price_at_purchase * l.quantity)).sum
    let o : Order := ⟨lines, total, .CREATED⟩
    (.created o, orders ++ [o])

/-- The catalog price of a product id (0 when absent); on a successful
checkout every referenced id is present. -/
def priceOf (catalog : List Product) (pid : Nat) : ℤ :=
  ((lookupProduct catalog pid).map Product.price).getD 0

/-! ## Concrete fixtures -/

/-- An empty store. -/
def emptyDb : Db := ⟨[], [], []⟩

/-- A POST request carrying csrf cookie `"A"` and body token `"B"`, with no
session cookie. -/
def mismatchReq : Req :=
  { method := "POST", bodyCsrf := some "B", headerCsrf := none,
    bodyEmail := none, bodyPassword := none,
    cookieSessionId := none, cookieCsrf := some "A" }

/-- A POST request supplying only a body csrf token, no cookies at all. -/
def bareCsrfReq : Req :=
  { method := "POST", bodyCsrf := some "T", headerCsrf := none,
    bodyEmail := none, bodyPassword := none,
    cookieSessionId := none, cookieCsrf := none }

/-- A toy PBKDF2 stand-in used by the concrete witnesses (the real
derivation lives in Node's crypto library). -/
def toyHash (password salt : String) : String := password ++ ":" ++ salt

/-- A store with one user (password `"pw"`, salt `"s1"` under `toyHash`)
holding a stale session, plus a session of another user. -/
def loginDb : Db :=
  { users := [⟨1, "a@b.c", "pw:s1", "s1", true⟩],
    sessions := [⟨"OLD1", 1, 50⟩, ⟨"X", 2, 60⟩],
    sessionData := [] }

/-- A correct login request for `loginDb`'s user, without a session cookie. -/
def goodLoginReq : Req :=
  { method := "POST", bodyCsrf := some "T", headerCsrf := none,
    bodyEmail := some "a@b.c", bodyPassword := some "pw",
    cookieSessionId := none, cookieCsrf := none }

/-- A login request for `loginDb`'s user with an unknown email. -/
def unknownEmailReq : Req :=
  { method := "POST", bodyCsrf := some "T", headerCsrf := none,
    bodyEmail := some "nobody@b.c", bodyPassword := some "pw",
    cookieSessionId := none, cookieCsrf := none }

/-- A login request for `loginDb`'s user with a wrong password. -/
def wrongPasswordReq : Req :=
  { method := "POST", bodyCsrf := some "T", headerCsrf := none,
    bodyEmail := some "a@b.c", bodyPassword := some "bad",
    cookieSessionId := none, cookieCsrf := none }

/-- A store with a user and a live session that has no CSRF pin yet. -/
def pinlessDb : Db :=
  { users := [⟨1, "a@b.c", "pw:s1", "s1", false⟩],
    sessions := [⟨"S", 1, 99⟩],
    sessionData := [] }

/-- A wrong-password login request that carries `pinlessDb`'s session cookie
and a csrf token. -/
def badLoginWithSessionReq : Req :=
  { method := "POST", bodyCsrf := some "T", headerCsrf := none,
    bodyEmail := some "a@b.c", bodyPassword := some "bad",
    cookieSessionId := some "S", cookieCsrf := none }

/-- A store with a valid session for the `c5` witness. -/
def liveSessionDb : Db :=
  { users := [⟨1, "a@b.c", "pw:s1", "s1", true⟩],
    sessions := [⟨"S", 1, 200⟩],
    sessionData := [] }

/-- A GET request that only carries `liveSessionDb`'s session cookie. -/
def sessionOnlyReq : Req :=
  { method := "GET", bodyCsrf := none, headerCsrf := none,
    bodyEmail := none, bodyPassword := none,
    cookieSessionId := some "S", cookieCsrf := none }

/-- A store with a session whose CSRF pin is `"V"`. -/
def pinnedDb : Db :=
  { users := [⟨1, "a@b.c", "pw:s1", "s1", false⟩],
    sessions := [⟨"S", 1, 99⟩],
    sessionData := [⟨"S", "csrf_token", "V"⟩] }

/-- A POST request for `pinnedDb`'s session presenting token `"W" ≠ "V"`. -/
def mismatchedPinReq : Req :=
  { method := "POST", bodyCsrf := some "W", headerCsrf := none,
    bodyEmail := none, bodyPassword := none,
    cookieSessionId := some "S", cookieCsrf := none }

/-- A store for the Claim C7 witness: one user with password `"cur0"` under
salt `"s0"` and `toyHash`, plus a live session for that user. -/
def cpDb : Db :=
  { users := [⟨1, "a@b.c", "cur0:s0", "s0", false⟩],
    sessions := [⟨"S", 1, 99⟩],
    sessionData := [] }

/-- A one-product catalog whose product 1 costs 3. -/
def catalogFx : List Product := [⟨1, "apple", 3⟩]

/-- A checkout of two units of product 1 carrying a forged client price. -/
def forgedItems : List CheckoutItem := [⟨1, 2, some 99⟩]

/-- A checkout mixing a valid line with an unknown product id 7. -/
def mixedItems : List CheckoutItem := [⟨1, 2, none⟩, ⟨7, 1, none⟩]

/-! ## Helper lemmas and claims -/

/-- A `find?` hit in a prefix survives appending rows. -/
theorem find?_append_some {α : Type} (p : α → Bool) (l₁ l₂ : List α) (a : α)
    (h : l₁.find? p = some a) : (l₁ ++ l₂).find? p = some a := by
  rw [List.find?_append, h]; rfl

/-- `validateCSRF` never touches `users` or `sessions`; it can change
`session_data` only by appending a single first-use pin row. -/
theorem validateCSRF_next_spec (db : Db) (req : Req) (db1 : Db)
    (h : validateCSRF db req = .next db1) :
    db1.users = db.users ∧ db1.sessions = db.sessions ∧
      (db1.sessionData = db.sessionData ∨
        ∃ sid t, db1.sessionData = db.sessionData ++ [⟨sid, "csrf_token", t⟩]) := by
  unfold validateCSRF at h
  split at h
  · cases h; exact ⟨rfl, rfl, Or.inl rfl⟩
  · dsimp only at h
    split at h
    · cases h
    · split at h
      · split at h
        · split at h
          · cases h
            exact ⟨rfl, rfl, Or.inr ⟨_, _, rfl⟩⟩
          · split at h
            · cases h
            · cases h; exact ⟨rfl, rfl, Or.inl rfl⟩
        · cases h; exact ⟨rfl, rfl, Or.inl rfl⟩
      · cases h; exact ⟨rfl, rfl, Or.inl rfl⟩

/-- Exhaustive description of `loginHandler`: either an error response with
the store untouched, or — for the user found by email — session rotation
plus insertion and an optional CSRF pin for the fresh session. -/
theorem loginHandler_cases (pbkdf2 : String → String → String) (db : Db)
    (req : Req) (newSid : String) (now : Nat) :
    (∃ s e, loginHandler pbkdf2 db req newSid now = (.err s e, db)) ∨
    (∃ usr, findUserByEmail db (req.bodyEmail.getD "") = some usr ∧
      loginHandler pbkdf2 db req newSid now =
        (.ok ⟨usr.email, usr.is_admin⟩ newSid,
          { db with
            sessions :=
              db.sessions.filter (fun s => decide (s.userid ≠ usr.userid)) ++
                [⟨newSid, usr.userid, now + loginTTL⟩],
            sessionData :=
              if truthy req.bodyCsrf then
                db.sessionData ++ [⟨newSid, "csrf_token", req.bodyCsrf.getD ""⟩]
              else db.sessionData })) := by
  unfold loginHandler
  split
  · exact Or.inl ⟨_, _, rfl⟩
  · split
    · exact Or.inl ⟨_, _, rfl⟩
    · rename_i usr heq
      split
      · exact Or.inl ⟨_, _, rfl⟩
      · exact Or.inr ⟨usr, heq, rfl⟩

/-- Claim C1, counterexample: a POST request whose `csrf_token` cookie holds
`"A"` while the body supplies `"B" ≠ "A"` is accepted unchanged by
`validateCSRF` — the middleware actually mounted on the protected routes
(src/server.js line 661) — rather than rejected with a 403 CSRF error. -/
theorem c1_counterexample :
    validateCSRF emptyDb mismatchReq = .next emptyDb ∧ "A" ≠ "B" := by
  exact ⟨rfl, by decide⟩

/-- Claim C1, amended: the cookie-vs-request double-submit comparison lives
only in `validateEnhancedCSRF` (which no route mounts): for every non-GET
request with csrf cookie `A` and supplied token `B ≠ A` it answers 403
"Invalid CSRF token"; the mounted `validateCSRF` does not consult the
cookie. -/
theorem c1_enhanced_double_submit (db : Db) (req : Req) (A B : String)
    (hm : req.method ≠ "GET") (hcookie : req.cookieCsrf = some A) (hA : A ≠ "")
    (hreq : jsOr req.bodyCsrf req.headerCsrf = some B) (hB : B ≠ "")
    (hne : B ≠ A) :
    validateEnhancedCSRF db req = .reject 403 "Invalid CSRF token" := by
  unfold validateEnhancedCSRF
  dsimp only
  rw [hreq, hcookie]
  simp [truthy, hm, hA, hB, hne]

/-- Witness for the amended Claim C1 theorem at a concrete input. -/
theorem c1_enhanced_double_submit_witness :
    validateEnhancedCSRF emptyDb mismatchReq = .reject 403 "Invalid CSRF token" :=
  c1_enhanced_double_submit emptyDb mismatchReq "A" "B"
    (by decide) rfl (by decide) rfl (by decide) (by decide)

/-- Claim C9: for every non-GET request that carries no (truthy) session
cookie, the mounted CSRF middleware `validateCSRF` accepts — passes the
request through with the store unchanged — iff the request supplies a
truthy `csrf_token` in body or header; and the `csrf_token` cookie is never
consulted (the outcome is invariant under changing it). -/
theorem c9_csrf_presence_only (db : Db) (req : Req)
    (hm : req.method ≠ "GET") (hs : truthy req.cookieSessionId = false) :
    ((validateCSRF db req = .next db) ↔
      truthy (jsOr req.bodyCsrf req.headerCsrf) = true) ∧
    (∀ c, validateCSRF db { req with cookieCsrf := c } = validateCSRF db req) := by
  constructor
  · unfold validateCSRF
    dsimp only
    rw [if_neg (by simp [hm])]
    cases htok : truthy (jsOr req.bodyCsrf req.headerCsrf) with
    | false => simp [htok]
    | true => simp [htok, hs]
  · intro c; rfl

/-- Witness for the Claim C9 theorem at a concrete input. -/
theorem c9_csrf_presence_only_witness :
    validateCSRF emptyDb bareCsrfReq = .next emptyDb :=
  ((c9_csrf_presence_only emptyDb bareCsrfReq (by decide) (by decide)).1).mpr
    (by decide)

/-- Claim C2: whenever a login succeeds, the successor store holds exactly
one sessions row for the logged-in user — the freshly inserted one (the
handler deletes all prior sessions of that user before the insert), so
after any number of sequential successful logins exactly one row remains. -/
theorem c2_single_session (pbkdf2 : String → String → String) (db : Db)
    (req : Req) (newSid : String) (now : Nat) (usr : User) (resp : LoginUser)
    (ck : String)
    (hu : findUserByEmail db (req.bodyEmail.getD "") = some usr)
    (h : (loginRoute pbkdf2 db req newSid now).1 = .ok resp ck) :
    (loginRoute pbkdf2 db req newSid now).2.sessions.filter
        (fun s => s.userid == usr.userid) =
      [⟨newSid, usr.userid, now + loginTTL⟩] := by
  unfold loginRoute at h ⊢
  cases hv : validateCSRF db req with
  | reject s e => simp [hv] at h
  | next db1 =>
    rw [hv] at h
    dsimp only at h ⊢
    obtain ⟨hus, hss, -⟩ := validateCSRF_next_spec db req db1 hv
    rcases loginHandler_cases pbkdf2 db1 req newSid now with
      ⟨s, e, hcase⟩ | ⟨usr', hfind, hcase⟩
    · rw [hcase] at h; simp at h
    · have hfind' : findUserByEmail db1 (req.bodyEmail.getD "") = some usr := by
        unfold findUserByEmail at hu ⊢; rw [hus]; exact hu
      rw [hfind'] at hfind
      have husr : usr = usr' := Option.some.inj hfind
      subst husr
      rw [hcase]
      dsimp only
      rw [hss]
      simp [List.filter_append, List.filter_filter]

/-- Witness for the Claim C2 theorem at a concrete input. -/
theorem c2_single_session_witness :
    (loginRoute toyHash loginDb goodLoginReq "NS" 100).2.sessions.filter
        (fun s => s.userid == 1) = [⟨"NS", 1, 100 + loginTTL⟩] :=
  c2_single_session toyHash loginDb goodLoginReq "NS" 100
    ⟨1, "a@b.c", "pw:s1", "s1", true⟩ ⟨"a@b.c", true⟩ "NS"
    (by decide) (by decide)

/-- Claim C8: the two 401 causes of login — unknown email, and known email
with a password-hash mismatch — produce identical responses (same status,
same generic message), so they are observationally indistinguishable. -/
theorem c8_login_failure_uniform (pbkdf2 : String → String → String) (db : Db)
    (req1 req2 : Req) (sid1 sid2 : String) (n1 n2 : Nat) (usr : User)
    (he1 : truthy req1.bodyEmail = true) (hp1 : truthy req1.bodyPassword = true)
    (he2 : truthy req2.bodyEmail = true) (hp2 : truthy req2.bodyPassword = true)
    (h1 : findUserByEmail db (req1.bodyEmail.getD "") = none)
    (h2 : findUserByEmail db (req2.bodyEmail.getD "") = some usr)
    (hmm : verifyPassword pbkdf2 (req2.bodyPassword.getD "") usr.password usr.salt
      = false) :
    (loginHandler pbkdf2 db req1 sid1 n1).1 = .err 401 "Invalid email or password" ∧
    (loginHandler pbkdf2 db req2 sid2 n2).1 = (loginHandler pbkdf2 db req1 sid1 n1).1 := by
  have e1 : (loginHandler pbkdf2 db req1 sid1 n1).1
      = .err 401 "Invalid email or password" := by
    unfold loginHandler
    rw [if_neg (by simp [he1, hp1]), h1]
  have e2 : (loginHandler pbkdf2 db req2 sid2 n2).1
      = .err 401 "Invalid email or password" := by
    unfold loginHandler
    rw [if_neg (by simp [he2, hp2]), h2]
    dsimp only
    rw [if_pos (by simp [hmm])]
  exact ⟨e1, e2.trans e1.symm⟩

/-- Witness for the Claim C8 theorem at a concrete input. -/
theorem c8_login_failure_uniform_witness :
    (loginHandler toyHash loginDb unknownEmailReq "N1" 0).1
      = .err 401 "Invalid email or password" ∧
    (loginHandler toyHash loginDb wrongPasswordReq "N2" 0).1
      = (loginHandler toyHash loginDb unknownEmailReq "N1" 0).1 :=
  c8_login_failure_uniform toyHash loginDb unknownEmailReq wrongPasswordReq
    "N1" "N2" 0 0 ⟨1, "a@b.c", "pw:s1", "s1", true⟩
    (by decide) (by decide) (by decide) (by decide)
    (by decide) (by decide) (by decide)

/-- Claim C10, counterexample: a login request with a wrong password but a
session cookie naming an existing unpinned session is rejected 401, yet a
`session_data` row is written — the CSRF middleware pins the presented
token before credentials are checked. -/
theorem c10_counterexample :
    (loginRoute toyHash pinlessDb badLoginWithSessionReq "NS" 0).1
      = .err 401 "Invalid email or password" ∧
    (loginRoute toyHash pinlessDb badLoginWithSessionReq "NS" 0).2.sessionData
      ≠ pinlessDb.sessionData := by
  decide

/-- Claim C10, amended: on a 401-rejected login the `users` and `sessions`
tables are unchanged and the handler itself writes nothing; the only
possible store write is the CSRF middleware appending a single first-use
`csrf_token` pin row to `session_data`. -/
theorem c10_login_401_no_session_writes (pbkdf2 : String → String → String)
    (db : Db) (req : Req) (newSid : String) (now : Nat) (e : String)
    (h : (loginRoute pbkdf2 db req newSid now).1 = .err 401 e) :
    (loginRoute pbkdf2 db req newSid now).2.sessions = db.sessions ∧
    (loginRoute pbkdf2 db req newSid now).2.users = db.users ∧
    ((loginRoute pbkdf2 db req newSid now).2.sessionData = db.sessionData ∨
      ∃ sid t, (loginRoute pbkdf2 db req newSid now).2.sessionData =
        db.sessionData ++ [⟨sid, "csrf_token", t⟩]) := by
  unfold loginRoute at h ⊢
  cases hv : validateCSRF db req with
  | reject s e' => exact ⟨rfl, rfl, Or.inl rfl⟩
  | next db1 =>
    rw [hv] at h
    dsimp only at h ⊢
    obtain ⟨hus, hss, hsd⟩ := validateCSRF_next_spec db req db1 hv
    rcases loginHandler_cases pbkdf2 db1 req newSid now with
      ⟨s, e2, hcase⟩ | ⟨usr, hfind, hcase⟩
    · rw [hcase]; exact ⟨hss, hus, hsd⟩
    · rw [hcase] at h; simp at h

/-- Witness for the amended Claim C10 theorem at a concrete input. -/
theorem c10_login_401_no_session_writes_witness :
    (loginRoute toyHash loginDb wrongPasswordReq "NS" 0).2.sessions
      = loginDb.sessions ∧
    (loginRoute toyHash loginDb wrongPasswordReq "NS" 0).2.users
      = loginDb.users ∧
    ((loginRoute toyHash loginDb wrongPasswordReq "NS" 0).2.sessionData
        = loginDb.sessionData ∨
      ∃ sid t, (loginRoute toyHash loginDb wrongPasswordReq "NS" 0).2.sessionData
        = loginDb.sessionData ++ [⟨sid, "csrf_token", t⟩]) :=
  c10_login_401_no_session_writes toyHash loginDb wrongPasswordReq "NS" 0
    "Invalid email or password" (by decide)

/-- Claim C5: with a (non-empty) session id in the cookie, and under the
schema's foreign-key invariant that every session's userid has a users row,
`isAuthenticated` accepts iff a sessions row with that id exists whose
`expires_at` is strictly later than now; otherwise — in particular for any
expired session — it answers 401 and instructs the caller to clear the
session cookie. -/
theorem c5_session_validation (db : Db) (now : Nat) (req : Req) (sid : String)
    (hsid : req.cookieSessionId = some sid) (hne : sid ≠ "")
    (hfk : ∀ s ∈ db.sessions, ∃ u ∈ db.users, u.userid = s.userid) :
    ((∃ s ∈ db.sessions, s.session_id = sid ∧ now < s.expires_at) ↔
      ∃ uid adm, isAuthenticated db now req = .ok uid adm) ∧
    ((¬ ∃ s ∈ db.sessions, s.session_id = sid ∧ now < s.expires_at) →
      isAuthenticated db now req = .reject 401 "Session expired or invalid" true) := by
  have htr : (!truthy req.cookieSessionId) = false := by
    rw [hsid]; simp [truthy, hne]
  have hg : req.cookieSessionId.getD "" = sid := by rw [hsid]; rfl
  constructor
  · constructor
    · rintro ⟨s, hs, hid, hexp⟩
      have hsome : (db.sessions.find?
          (fun s => s.session_id == sid && decide (now < s.expires_at))).isSome := by
        rw [List.find?_isSome]
        exact ⟨s, hs, by simp [hid, hexp]⟩
      obtain ⟨s0, hs0⟩ := Option.isSome_iff_exists.mp hsome
      obtain ⟨u0, hu0m, hu0id⟩ := hfk s0 (List.mem_of_find?_eq_some hs0)
      have husome : (findUserById db s0.userid).isSome := by
        unfold findUserById
        rw [List.find?_isSome]
        exact ⟨u0, hu0m, by simp [hu0id]⟩
      obtain ⟨u1, hu1⟩ := Option.isSome_iff_exists.mp husome
      refine ⟨s0.userid, u1.is_admin, ?_⟩
      unfold isAuthenticated
      rw [if_neg (by simp [htr])]
      dsimp only
      rw [hg, hs0]
      dsimp only [Option.bind]
      rw [hu1]
      rfl
    · rintro ⟨uid, adm, h⟩
      unfold isAuthenticated at h
      rw [if_neg (by simp [htr])] at h
      dsimp only at h
      rw [hg] at h
      cases hf : db.sessions.find?
          (fun s => s.session_id == sid && decide (now < s.expires_at)) with
      | none => rw [hf] at h; cases h
      | some s0 =>
        have hp := List.find?_some hf
        simp only [Bool.and_eq_true, beq_iff_eq, decide_eq_true_eq] at hp
        exact ⟨s0, List.mem_of_find?_eq_some hf, hp.1, hp.2⟩
  · intro hno
    have hnone : db.sessions.find?
        (fun s => s.session_id == sid && decide (now < s.expires_at)) = none := by
      rw [List.find?_eq_none]
      intro s hs hp
      simp only [Bool.and_eq_true, beq_iff_eq, decide_eq_true_eq] at hp
      exact hno ⟨s, hs, hp.1, hp.2⟩
    unfold isAuthenticated
    rw [if_neg (by simp [htr])]
    dsimp only
    rw [hg, hnone]
    rfl

/-- Witness for the Claim C5 theorem: a live session is accepted at time
100, and the same session is rejected (with cookie clearing) at time 300,
after its expiry. -/
theorem c5_session_validation_witness :
    (∃ uid adm, isAuthenticated liveSessionDb 100 sessionOnlyReq = .ok uid adm) ∧
    isAuthenticated liveSessionDb 300 sessionOnlyReq
      = .reject 401 "Session expired or invalid" true :=
  ⟨(c5_session_validation liveSessionDb 100 sessionOnlyReq "S" rfl (by decide)
      (by decide)).1.mp ⟨⟨"S", 1, 200⟩, by decide, rfl, by decide⟩,
    (c5_session_validation liveSessionDb 300 sessionOnlyReq "S" rfl (by decide)
      (by decide)).2 (by decide)⟩

/-- `findSessionData` only reads `session_data`, and a hit survives any
append to that table. -/
theorem findSessionData_mono (db db' : Db) (S k : String) (d : SessionDatum)
    (h : findSessionData db S k = some d)
    (hsd : db'.sessionData = db.sessionData ∨
      ∃ l, db'.sessionData = db.sessionData ++ l) :
    findSessionData db' S k = some d := by
  unfold findSessionData at h ⊢
  rcases hsd with he | ⟨l, he⟩
  · rw [he]; exact h
  · rw [he]; exact find?_append_some _ _ _ _ h

/-- Claim C6: once a `csrf_token` value is pinned in `session_data` for a
session, (a) the mounted CSRF middleware never changes it, (b) the whole
login route never changes it, and (c) every non-GET request for that
session presenting a different truthy token is rejected with the 403 CSRF
error — so a Bound session stays Bound with the same value. -/
theorem c6_pin_first_write_wins (db : Db) (req : Req) (S : String)
    (d : SessionDatum) (hd : findSessionData db S "csrf_token" = some d) :
    (∀ db1, validateCSRF db req = .next db1 →
      findSessionData db1 S "csrf_token" = some d) ∧
    (∀ pbkdf2 newSid now,
      findSessionData (loginRoute pbkdf2 db req newSid now).2 S "csrf_token"
        = some d) ∧
    (∀ t, req.method ≠ "GET" → req.cookieSessionId = some S → S ≠ "" →
      (∃ s ∈ db.sessions, s.session_id = S) →
      jsOr req.bodyCsrf req.headerCsrf = some t → t ≠ "" → t ≠ d.value →
      validateCSRF db req = .reject 403 "Invalid CSRF token") := by
  refine ⟨?_, ?_, ?_⟩
  · intro db1 h1
    obtain ⟨-, -, hsd⟩ := validateCSRF_next_spec db req db1 h1
    refine findSessionData_mono db db1 S _ d hd ?_
    rcases hsd with he | ⟨sid, t, he⟩
    · exact Or.inl he
    · exact Or.inr ⟨_, he⟩
  · intro pbkdf2 newSid now
    unfold loginRoute
    cases hv : validateCSRF db req with
    | reject s e => exact hd
    | next db1 =>
      dsimp only
      have hpin1 : findSessionData db1 S "csrf_token" = some d := by
        obtain ⟨-, -, hsd⟩ := validateCSRF_next_spec db req db1 hv
        refine findSessionData_mono db db1 S _ d hd ?_
        rcases hsd with he | ⟨sid, t, he⟩
        · exact Or.inl he
        · exact Or.inr ⟨_, he⟩
      rcases loginHandler_cases pbkdf2 db1 req newSid now with
        ⟨s, e, hcase⟩ | ⟨usr, hfind, hcase⟩
      · rw [hcase]; exact hpin1
      · rw [hcase]
        refine findSessionData_mono db1 _ S _ d hpin1 ?_
        cases htr : truthy req.bodyCsrf
        · exact Or.inl (by simp [htr])
        · exact Or.inr
            ⟨[⟨newSid, "csrf_token", req.bodyCsrf.getD ""⟩], by simp [htr]⟩
  · intro t hm hck hS hex hjs ht hnv
    unfold validateCSRF
    dsimp only
    rw [hjs, hck]
    rw [if_neg (by simp [hm])]
    rw [if_neg (by simp [truthy, ht])]
    rw [if_pos (by simp [truthy, hS])]
    simp only [Option.getD_some]
    obtain ⟨s, hsmem, hsidEq⟩ := hex
    have hsome : (findSession db S).isSome := by
      unfold findSession
      rw [List.find?_isSome]
      exact ⟨s, hsmem, by simp [hsidEq]⟩
    obtain ⟨s0, hs0⟩ := Option.isSome_iff_exists.mp hsome
    have hs0id : s0.session_id = S := by
      unfold findSession at hs0
      have := List.find?_some hs0
      simpa using this
    rw [hs0]
    dsimp only
    rw [hs0id, hd]
    dsimp only
    rw [if_pos (Ne.symm hnv)]

/-- Witness for the Claim C6 theorem at a concrete input. -/
theorem c6_pin_first_write_wins_witness :
    validateCSRF pinnedDb mismatchedPinReq = .reject 403 "Invalid CSRF token" :=
  (c6_pin_first_write_wins pinnedDb mismatchedPinReq "S" ⟨"S", "csrf_token", "V"⟩
      (by decide)).2.2 "W" (by decide) rfl (by decide)
    ⟨⟨"S", 1, 99⟩, by decide, rfl⟩ rfl (by decide) (by decide)

/-- Exhaustive description of `changePasswordHandler`: either an error with
the store untouched, or — when the current password verifies — the user's
hash and salt replaced and all of the user's sessions deleted. -/
theorem changePasswordHandler_cases (pbkdf2 : String → String → String)
    (db : Db) (uid : Nat) (cw nw : Option String) (newSalt : String) :
    (∃ s e, changePasswordHandler pbkdf2 db uid cw nw newSalt = (.err s e, db)) ∨
    (∃ usr, findUserById db uid = some usr ∧
      verifyPassword pbkdf2 (cw.getD "") usr.password usr.salt = true ∧
      changePasswordHandler pbkdf2 db uid cw nw newSalt =
        (.ok, { db with
          users := db.users.map (fun u =>
            if u.userid == usr.userid
            then { u with password := hashPassword pbkdf2 (nw.getD "") newSalt,
                          salt := newSalt }
            else u),
          sessions := db.sessions.filter (fun s => decide (s.userid ≠ usr.userid)) })) := by
  unfold changePasswordHandler
  split
  · exact Or.inl ⟨_, _, rfl⟩
  · split
    · exact Or.inl ⟨_, _, rfl⟩
    · split
      · exact Or.inl ⟨_, _, rfl⟩
      · rename_i usr heq
        split
        · exact Or.inl ⟨_, _, rfl⟩
        · rename_i hver
          exact Or.inr ⟨usr, heq, by simpa using hver, rfl⟩

/-- Claim C7: credential verification succeeds iff PBKDF2 of the plaintext
with the stored salt equals the stored hash; and after a successful
password change (fresh salt, new hash, assuming the two PBKDF2 outputs at
the new salt differ) verification of the old password against the updated
user record fails. -/
theorem c7_password_roundtrip (pbkdf2 : String → String → String)
    (p storedHash salt : String) (db : Db) (uid : Nat)
    (cur new1 newSalt : String) (usr usr' : User)
    (hu : findUserById db uid = some usr)
    (hok : (changePasswordHandler pbkdf2 db uid (some cur) (some new1) newSalt).1
      = .ok)
    (hu' : findUserById
      (changePasswordHandler pbkdf2 db uid (some cur) (some new1) newSalt).2 uid
      = some usr')
    (hcoll : pbkdf2 cur newSalt ≠ pbkdf2 new1 newSalt) :
    (verifyPassword pbkdf2 p storedHash salt = true ↔ pbkdf2 p salt = storedHash) ∧
    verifyPassword pbkdf2 cur usr'.password usr'.salt = false := by
  constructor
  · simp [verifyPassword, hashPassword]
  · rcases changePasswordHandler_cases pbkdf2 db uid (some cur) (some new1) newSalt
      with ⟨s, e, hcase⟩ | ⟨usr0, hfind0, hver0, hcase⟩
    · rw [hcase] at hok; simp at hok
    · rw [hcase] at hu'
      dsimp only at hu'
      simp only [Option.getD_some] at hu'
      rw [hfind0] at hu
      have husr0 : usr0 = usr := Option.some.inj hu
      subst husr0
      unfold findUserById at hu'
      rw [List.find?_map] at hu'
      have hpf : ((fun u : User => u.userid == uid) ∘ (fun u : User =>
          if u.userid == usr0.userid
          then { u with password := hashPassword pbkdf2 new1 newSalt, salt := newSalt }
          else u)) = (fun u : User => u.userid == uid) := by
        funext u
        by_cases hcu : u.userid == usr0.userid
        · simp [Function.comp, hcu]
        · simp [Function.comp, hcu]
      rw [hpf] at hu'
      unfold findUserById at hfind0
      rw [hfind0] at hu'
      simp only [Option.map_some'] at hu'
      have husr' : usr' =
          (if usr0.userid == usr0.userid
            then { usr0 with password := hashPassword pbkdf2 new1 newSalt,
                             salt := newSalt }
            else usr0) := (Option.some.inj hu').symm
      rw [if_pos (by simp)] at husr'
      subst husr'
      simp only [verifyPassword, hashPassword]
      exact beq_eq_false_iff_ne.mpr hcoll

/-- Witness for the Claim C7 theorem at a concrete input: `"x"` is verified
iff its hash matches, and after changing the password from `"cur0"` to
`"newpass99"` with fresh salt `"s9"`, the old password no longer verifies. -/
theorem c7_password_roundtrip_witness :
    (verifyPassword toyHash "x" "x:s0" "s0" = true ↔ toyHash "x" "s0" = "x:s0") ∧
    verifyPassword toyHash "cur0"
      ((⟨1, "a@b.c", "newpass99:s9", "s9", false⟩ : User)).password
      ((⟨1, "a@b.c", "newpass99:s9", "s9", false⟩ : User)).salt = false :=
  c7_password_roundtrip toyHash "x" "x:s0" "s0" cpDb 1 "cur0" "newpass99" "s9"
    ⟨1, "a@b.c", "cur0:s0", "s0", false⟩ ⟨1, "a@b.c", "newpass99:s9", "s9", false⟩
    (by decide) (by decide) (by decide) (by decide)

/-- The re-pricing pass reads only `pid` and `quantity`; the untrusted
client-side price field is irrelevant. -/
theorem priceItems_clientPrice_irrelevant (catalog : List Product)
    (f : CheckoutItem → Option ℤ) :
    ∀ items : List CheckoutItem,
      priceItems catalog (items.map (fun it => { it with clientPrice := f it }))
        = priceItems catalog items := by
  intro items
  induction items with
  | nil => rfl
  | cons it rest ih =>
    simp only [List.map_cons]
    unfold priceItems
    dsimp only
    rw [ih]

/-- On a successful re-pricing pass, the sum over the produced lines equals
the sum of catalog price times quantity over the submitted items. -/
theorem priceItems_total (catalog : List Product) :
    ∀ (items : List CheckoutItem) (lines : List OrderLine),
      priceItems catalog items = some lines →
      (lines.map (fun l => l.unit_price_at_purchase * l.quantity)).sum =
        (items.map (fun it => priceOf catalog it.pid * it.quantity)).sum := by
  intro items
  induction items with
  | nil =>
    intro lines h
    cases h
    rfl
  | cons it rest ih =>
    intro lines h
    unfold priceItems at h
    split at h
    · cases h
    · cases hl : lookupProduct catalog it.pid with
      | none => rw [hl] at h; cases h
      | some pr =>
        rw [hl] at h
        dsimp only at h
        cases hr : priceItems catalog rest with
        | none => rw [hr] at h; cases h
        | some ls =>
          rw [hr] at h
          dsimp only at h
          cases h
          simp only [List.map_cons, List.sum_cons]
          rw [ih ls hr]
          unfold priceOf
          rw [hl]
          rfl

/-- Claim C3: order creation ignores any client-submitted price (changing
every `clientPrice` field leaves the outcome unchanged), and the persisted
order's total equals the sum over the submitted items of the catalog price
at lookup time multiplied by the quantity. -/
theorem c3_order_price_integrity (catalog : List Product)
    (orders : List Order) (items : List CheckoutItem)
    (f : CheckoutItem → Option ℤ) (o : Order) (rest : List Order)
    (hc : createOrder catalog orders items = (.created o, rest)) :
    createOrder catalog orders
        (items.map (fun it => { it with clientPrice := f it }))
      = createOrder catalog orders items ∧
    o.total_amount =
      (items.map (fun it => priceOf catalog it.pid * it.quantity)).sum := by
  constructor
  · unfold createOrder
    rw [priceItems_clientPrice_irrelevant]
  · unfold createOrder at hc
    cases hp : priceItems catalog items with
    | none => rw [hp] at hc; cases hc
    | some lines =>
      rw [hp] at hc
      dsimp only at hc
      have ho : o = ⟨lines,
          (lines.map (fun l => l.unit_price_at_purchase * l.quantity)).sum,
          .CREATED⟩ := by
        have := congrArg Prod.fst hc
        exact (CreateOrderResult.created.inj this).symm
      rw [ho]
      exact priceItems_total catalog items lines hp

/-- Witness for the Claim C3 theorem at a concrete input. -/
theorem c3_order_price_integrity_witness :
    createOrder catalogFx []
        (forgedItems.map (fun it => { it with clientPrice := some 1 }))
      = createOrder catalogFx [] forgedItems ∧
    (Order.mk [⟨1, "apple", 3, 2⟩] 6 .CREATED).total_amount =
      (forgedItems.map
        (fun it => priceOf catalogFx it.pid * it.quantity)).sum :=
  c3_order_price_integrity catalogFx [] forgedItems (fun _ => some 1)
    ⟨[⟨1, "apple", 3, 2⟩], 6, .CREATED⟩
    [⟨[⟨1, "apple", 3, 2⟩], 6, .CREATED⟩] (by decide)

/-- Any offending item — nonpositive quantity or unknown product id —
forces the whole re-pricing pass to fail. -/
theorem priceItems_none_of_bad (catalog : List Product) :
    ∀ items : List CheckoutItem,
      (∃ it ∈ items, it.quantity ≤ 0 ∨ lookupProduct catalog it.pid = none) →
      priceItems catalog items = none := by
  intro items
  induction items with
  | nil => rintro ⟨it, hmem, -⟩; cases hmem
  | cons a rest ih =>
    rintro ⟨it, hmem, hvio⟩
    unfold priceItems
    rcases List.mem_cons.mp hmem with heq | hmem'
    · subst heq
      by_cases hq : it.quantity ≤ 0
      · rw [if_pos hq]
      · rw [if_neg hq]
        rcases hvio with hq' | hlk
        · exact absurd hq' hq
        · rw [hlk]
    · by_cases hq : a.quantity ≤ 0
      · rw [if_pos hq]
      · rw [if_neg hq]
        cases hl : lookupProduct catalog a.pid with
        | none => rfl
        | some pr =>
          dsimp only
          rw [ih ⟨it, hmem', hvio⟩]

/-- Claim C4: a checkout containing any product id that does not resolve in
the catalog, or any nonpositive quantity, is answered with the 400 error
and persists nothing — the orders table is returned unchanged. -/
theorem c4_no_partial_orders (catalog : List Product) (orders : List Order)
    (items : List CheckoutItem)
    (hbad : ∃ it ∈ items, it.quantity ≤ 0 ∨ lookupProduct catalog it.pid = none) :
    createOrder catalog orders items = (.badRequest "Invalid items", orders) := by
  unfold createOrder
  rw [priceItems_none_of_bad catalog items hbad]

/-- Witness for the Claim C4 theorem at a concrete input. -/
theorem c4_no_partial_orders_witness :
    createOrder catalogFx [] mixedItems = (.badRequest "Invalid items", []) :=
  c4_no_partial_orders catalogFx [] mixedItems
    ⟨⟨7, 1, none⟩, by decide, Or.inr (by decide)⟩

end IsaacVM
